import Mathlib

/-!
Verification of the order-history diffing and snapshot-retention engine of
tesla-delivery-tui.

The definitions below are a shallow embedding of the Go source:
  - internal/model (types.go): the order snapshot data model, the
    sentinel-deriving accessors and CompareOrders;
  - internal/storage (history.go): LoadHistory, SaveHistory, AddSnapshot and
    GetLatestSnapshot.

Modelling conventions:
  - Go pointer optionality (a nil-able pointer field) becomes Option;
  - the per-order JSON files under the history directory become an
    association list from reference number to a file value. A file written by
    this program always serialises an OrderHistory whose ReferenceNumber
    equals the file key (SaveHistory derives the path from that very field),
    so a stored file is modelled as the snapshot list, and LoadHistory
    reconstructs the record with the key as its reference number, exactly as
    the Go code does for a missing file. Unreadable and unparsable files are
    modelled explicitly so that the error paths of LoadHistory are preserved;
  - time.Now() becomes an explicit timestamp parameter (Nat);
  - fallible Go functions returning (T, error) become Except StorageError T.
-/

namespace TeslaDelivery

/-- TeslaTaskCard (model): display information of a task card. The nested
anonymous ButtonText struct carries only its CTA string. -/
structure TeslaTaskCard where
  Title : String
  Subtitle : String
  MessageBody : String
  MessageTitle : String
  ButtonTextCTA : Option String
  Target : String
deriving DecidableEq, Repr

/-- TeslaTask (model): a task in the order process. -/
structure TeslaTask where
  ID : String
  Complete : Bool
  Enabled : Bool
  Required : Bool
  Order : Int
  Card : Option TeslaTaskCard
deriving DecidableEq, Repr

/-- SchedulingTask (model): scheduling-specific task data; Go struct
embedding of TeslaTask becomes structure extension. -/
structure SchedulingTask extends TeslaTask where
  DeliveryWindowDisplay : String
  ApptDateTimeAddressStr : String
  DeliveryType : String
  DeliveryAddressTitle : String
  IsSelfSchedulingAvailable : Bool
  SelfSchedulingURL : String
deriving DecidableEq, Repr

/-- RegistrationOrderDetails (model): order details from the registration
task. -/
structure RegistrationOrderDetails where
  VehicleRoutingLocation : String
  VehicleOdometer : String
  VehicleOdometerType : String
  ReservationDate : String
  OrderBookedDate : String
deriving DecidableEq, Repr

/-- RegistrationTask (model). -/
structure RegistrationTask extends TeslaTask where
  OrderDetails : Option RegistrationOrderDetails
deriving DecidableEq, Repr

/-- FinalPaymentData (model). -/
structure FinalPaymentData where
  ETAToDeliveryCenter : String
deriving DecidableEq, Repr

/-- FinalPaymentTask (model). -/
structure FinalPaymentTask extends TeslaTask where
  Data : Option FinalPaymentData
deriving DecidableEq, Repr

/-- DeliveryDetailsRegData (model). -/
structure DeliveryDetailsRegData where
  ReggieLicensePlate : String
deriving DecidableEq, Repr

/-- DeliveryDetailsTask (model). -/
structure DeliveryDetailsTask extends TeslaTask where
  RegData : Option DeliveryDetailsRegData
deriving DecidableEq, Repr

/-- OrderTasks (model). The Go field Raw is an untyped map of raw JSON task
payloads kept only for display passthrough; the diff engine never reads it,
so it is modelled as an opaque association list of strings. -/
structure OrderTasks where
  Scheduling : Option SchedulingTask
  Registration : Option RegistrationTask
  FinalPayment : Option FinalPaymentTask
  DeliveryDetails : Option DeliveryDetailsTask
  Raw : List (String × String)
deriving DecidableEq, Repr

/-- OrderDetails (model). RawJSON is display-only passthrough, modelled
opaquely like OrderTasks.Raw. -/
structure OrderDetails where
  Tasks : OrderTasks
  RawJSON : List (String × String)
deriving DecidableEq, Repr

/-- TeslaOrder (model): a Tesla vehicle order. -/
structure TeslaOrder where
  ReferenceNumber : String
  OrderStatus : String
  ModelCode : String
  VIN : Option String
  IsB2B : Bool
  OwnerCompanyName : Option String
  IsUsed : Bool
  MktOptions : Option String
deriving DecidableEq, Repr

/-- CombinedOrder (model): basic order info combined with detailed task
data. -/
structure CombinedOrder where
  Order : TeslaOrder
  Details : OrderDetails
deriving DecidableEq, Repr

/-- TeslaOrder.GetVIN: the VIN, or "N/A" if the pointer is nil or the string
is empty. -/
def TeslaOrder.GetVIN (o : TeslaOrder) : String :=
  match o.VIN with
  | some v => if v ≠ "" then v else "N/A"
  | none => "N/A"

/-- CombinedOrder.GetDeliveryWindow: the delivery window display string, or
"N/A" when scheduling is absent or the string empty. -/
def CombinedOrder.GetDeliveryWindow (c : CombinedOrder) : String :=
  match c.Details.Tasks.Scheduling with
  | some s => if s.DeliveryWindowDisplay ≠ "" then s.DeliveryWindowDisplay else "N/A"
  | none => "N/A"

/-- CombinedOrder.GetDeliveryAppointment: the appointment string, or "N/A"
when scheduling is absent or the string empty. -/
def CombinedOrder.GetDeliveryAppointment (c : CombinedOrder) : String :=
  match c.Details.Tasks.Scheduling with
  | some s => if s.ApptDateTimeAddressStr ≠ "" then s.ApptDateTimeAddressStr else "N/A"
  | none => "N/A"

/-- CombinedOrder.GetETAToDeliveryCenter: returns the raw field whenever
both FinalPayment and its Data are present, even when the field is the
empty string; "N/A" only when the chain is absent. -/
def CombinedOrder.GetETAToDeliveryCenter (c : CombinedOrder) : String :=
  match c.Details.Tasks.FinalPayment with
  | some fp =>
      match fp.Data with
      | some d => d.ETAToDeliveryCenter
      | none => "N/A"
  | none => "N/A"

/-- CombinedOrder.GetVehicleLocation: returns the raw routing location
whenever both Registration and its OrderDetails are present, even when
empty; "N/A" only when the chain is absent. -/
def CombinedOrder.GetVehicleLocation (c : CombinedOrder) : String :=
  match c.Details.Tasks.Registration with
  | some r =>
      match r.OrderDetails with
      | some od => od.VehicleRoutingLocation
      | none => "N/A"
  | none => "N/A"

/-- CombinedOrder.GetDeliveryType: the delivery type, or "N/A" when
scheduling is absent or the string empty. -/
def CombinedOrder.GetDeliveryType (c : CombinedOrder) : String :=
  match c.Details.Tasks.Scheduling with
  | some s => if s.DeliveryType ≠ "" then s.DeliveryType else "N/A"
  | none => "N/A"

/-- CombinedOrder.GetDeliveryCenter: the delivery center title, or "N/A"
when scheduling is absent or the string empty. -/
def CombinedOrder.GetDeliveryCenter (c : CombinedOrder) : String :=
  match c.Details.Tasks.Scheduling with
  | some s => if s.DeliveryAddressTitle ≠ "" then s.DeliveryAddressTitle else "N/A"
  | none => "N/A"

/-- CombinedOrder.GetOdometer: odometer reading with unit suffix when both
are present; "N/A" when the chain is absent or the odometer string empty. -/
def CombinedOrder.GetOdometer (c : CombinedOrder) : String :=
  match c.Details.Tasks.Registration with
  | some r =>
      match r.OrderDetails with
      | some od =>
          if od.VehicleOdometer ≠ "" then
            if od.VehicleOdometerType ≠ "" then
              od.VehicleOdometer ++ " " ++ od.VehicleOdometerType
            else od.VehicleOdometer
          else "N/A"
      | none => "N/A"
  | none => "N/A"

/-- CombinedOrder.GetLicensePlate: returns the raw license plate whenever
both DeliveryDetails and its RegData are present, even when empty; "N/A"
only when the chain is absent. -/
def CombinedOrder.GetLicensePlate (c : CombinedOrder) : String :=
  match c.Details.Tasks.DeliveryDetails with
  | some dd =>
      match dd.RegData with
      | some rd => rd.ReggieLicensePlate
      | none => "N/A"
  | none => "N/A"

/-- CombinedOrder.GetReservationDate: the reservation date, or "N/A" when
the chain is absent or the string empty. -/
def CombinedOrder.GetReservationDate (c : CombinedOrder) : String :=
  match c.Details.Tasks.Registration with
  | some r =>
      match r.OrderDetails with
      | some od => if od.ReservationDate ≠ "" then od.ReservationDate else "N/A"
      | none => "N/A"
  | none => "N/A"

/-- CombinedOrder.GetOrderBookedDate: the order booked date, or "N/A" when
the chain is absent or the string empty. -/
def CombinedOrder.GetOrderBookedDate (c : CombinedOrder) : String :=
  match c.Details.Tasks.Registration with
  | some r =>
      match r.OrderDetails with
      | some od => if od.OrderBookedDate ≠ "" then od.OrderBookedDate else "N/A"
      | none => "N/A"
  | none => "N/A"

/-- HistoricalSnapshot (model): a point-in-time snapshot of order data;
time.Time is modelled as Nat. -/
structure HistoricalSnapshot where
  Timestamp : Nat
  Data : CombinedOrder
deriving DecidableEq, Repr

/-- OrderHistory (model): the history of snapshots for an order. -/
structure OrderHistory where
  ReferenceNumber : String
  Snapshots : List HistoricalSnapshot
deriving DecidableEq, Repr

/-- OrderDiff (model): a change between two snapshots. The Go OldValue and
NewValue fields are declared interface-typed, but every value CompareOrders
ever stores in them is a string (addDiff compares them through a string
type assertion), so they are modelled as String. -/
structure OrderDiff where
  Field : String
  OldValue : String
  NewValue : String
deriving DecidableEq, Repr

/-- The addDiff closure inside CompareOrders: records one diff when the two
display strings differ. -/
def addDiff (field oldVal newVal : String) : List OrderDiff :=
  if oldVal ≠ newVal then
    [{ Field := field, OldValue := oldVal, NewValue := newVal }]
  else []

/-- The bespoke MktOptions comparison at the end of CompareOrders: each nil
pointer is normalised to the "N/A" sentinel inline, then the two strings
are compared. -/
def mktOptionsDiff (old new : CombinedOrder) : List OrderDiff :=
  let oldOpts : String :=
    match old.Order.MktOptions with
    | some s => s
    | none => "N/A"
  let newOpts : String :=
    match new.Order.MktOptions with
    | some s => s
    | none => "N/A"
  if oldOpts ≠ newOpts then
    [{ Field := "Vehicle Options", OldValue := oldOpts, NewValue := newOpts }]
  else []

/-- CompareOrders (model): compares two CombinedOrders field by field, in
the fixed source order, appending the Vehicle Options comparison last. -/
def CompareOrders (old new : CombinedOrder) : List OrderDiff :=
  addDiff "Order Status" old.Order.OrderStatus new.Order.OrderStatus ++
  addDiff "VIN" old.Order.GetVIN new.Order.GetVIN ++
  addDiff "Delivery Window" old.GetDeliveryWindow new.GetDeliveryWindow ++
  addDiff "Delivery Appointment" old.GetDeliveryAppointment new.GetDeliveryAppointment ++
  addDiff "ETA to Delivery Center" old.GetETAToDeliveryCenter new.GetETAToDeliveryCenter ++
  addDiff "Vehicle Location" old.GetVehicleLocation new.GetVehicleLocation ++
  addDiff "Delivery Method" old.GetDeliveryType new.GetDeliveryType ++
  addDiff "Delivery Center" old.GetDeliveryCenter new.GetDeliveryCenter ++
  addDiff "Odometer" old.GetOdometer new.GetOdometer ++
  addDiff "License Plate" old.GetLicensePlate new.GetLicensePlate ++
  addDiff "Reservation Date" old.GetReservationDate new.GetReservationDate ++
  addDiff "Order Booked Date" old.GetOrderBookedDate new.GetOrderBookedDate ++
  mktOptionsDiff old new

/-- The fixed enumeration order of diff field labels used by CompareOrders,
Vehicle Options last. -/
def diffFieldOrder : List String :=
  ["Order Status", "VIN", "Delivery Window", "Delivery Appointment",
   "ETA to Delivery Center", "Vehicle Location", "Delivery Method",
   "Delivery Center", "Odometer", "License Plate", "Reservation Date",
   "Order Booked Date", "Vehicle Options"]

/-- StorageError: I/O fault reading a history file, or a deserialization
fault parsing it. -/
inductive StorageError where
  | readFault
  | parseFault
deriving DecidableEq, Repr

/-- One persisted per-order history file: a good file holds the serialised
snapshot list; unreadable models an I/O read fault; corrupt models content
json.Unmarshal rejects. -/
inductive VFile where
  | good (snapshots : List HistoricalSnapshot)
  | unreadable
  | corrupt
deriving DecidableEq, Repr

/-- The history directory: an association of reference number to file. -/
abbrev Storage := List (String × VFile)

/-- Look a file up by reference number. -/
def lookupFile : Storage → String → Option VFile
  | [], _ => none
  | (k, v) :: rest, key => if k = key then some v else lookupFile rest key

/-- Write a file, replacing any existing file with that reference number. -/
def setFile : Storage → String → VFile → Storage
  | [], key, v => [(key, v)]
  | (k, w) :: rest, key, v =>
      if k = key then (key, v) :: rest else (k, w) :: setFile rest key v

/-- maxHistoryEntries: the retention bound on snapshots per order. -/
def maxHistoryEntries : Nat := 20

/-- History.LoadHistory: a missing file is not an error and yields an empty
history carrying the requested reference number; a read fault or parse
fault is an error. -/
def History.LoadHistory (σ : Storage) (referenceNumber : String) :
    Except StorageError OrderHistory :=
  match lookupFile σ referenceNumber with
  | none => .ok { ReferenceNumber := referenceNumber, Snapshots := [] }
  | some (.good s) => .ok { ReferenceNumber := referenceNumber, Snapshots := s }
  | some .unreadable => .error .readFault
  | some .corrupt => .error .parseFault

/-- The pruning step at the top of SaveHistory: when more than
maxHistoryEntries snapshots are present, keep only the final
maxHistoryEntries of them (drop from the front). -/
def pruneSnapshots (s : List HistoricalSnapshot) : List HistoricalSnapshot :=
  if s.length > maxHistoryEntries then s.drop (s.length - maxHistoryEntries) else s

/-- History.SaveHistory: prune to the retention bound, then write the file
for the reference number the history itself carries. -/
def History.SaveHistory (σ : Storage) (history : OrderHistory) : Storage :=
  setFile σ history.ReferenceNumber (.good (pruneSnapshots history.Snapshots))

/-- History.AddSnapshot: load the history for the reference number of the
incoming order, diff against the last stored snapshot when one exists,
append and save only when there are diffs or no snapshot yet, and return
the diffs. -/
def History.AddSnapshot (σ : Storage) (now : Nat) (order : CombinedOrder) :
    Except StorageError (List OrderDiff × Storage) :=
  match History.LoadHistory σ order.Order.ReferenceNumber with
  | .error e => .error e
  | .ok history =>
      let diffs : List OrderDiff :=
        match history.Snapshots.getLast? with
        | some lastSnapshot => CompareOrders lastSnapshot.Data order
        | none => []
      if diffs.length > 0 ∨ history.Snapshots.length = 0 then
        let updated : OrderHistory :=
          { history with
              Snapshots := history.Snapshots ++ [{ Timestamp := now, Data := order }] }
        .ok (diffs, History.SaveHistory σ updated)
      else
        .ok (diffs, σ)

/-- History.GetLatestSnapshot: the newest stored snapshot, none when the
history is empty (the Go code returns a nil pointer and no error). -/
def History.GetLatestSnapshot (σ : Storage) (referenceNumber : String) :
    Except StorageError (Option HistoricalSnapshot) :=
  match History.LoadHistory σ referenceNumber with
  | .error e => .error e
  | .ok history => .ok history.Snapshots.getLast?

/-- The storage state left behind when the write inside SaveHistory is
interrupted. The Go implementation persists with os.WriteFile, which opens
the destination file with O_TRUNC and then writes the payload in place; a
failure or interruption after the truncation but before the full payload
lands destroys the previously persisted record and leaves partial content
that json.Unmarshal rejects on the next load. -/
def History.SaveHistoryInterrupted (σ : Storage) (history : OrderHistory) : Storage :=
  setFile σ history.ReferenceNumber .corrupt

/-- Number of snapshots stored for a reference number (zero when the file
is missing or not a good file). -/
def snapCount (σ : Storage) (referenceNumber : String) : Nat :=
  match lookupFile σ referenceNumber with
  | some (.good s) => s.length
  | _ => 0

/-- A baseline concrete order used by the concrete theorems below: every
optional sub-object absent. -/
def sampleOrder : CombinedOrder :=
  { Order :=
      { ReferenceNumber := "RN123456789", OrderStatus := "BOOKED",
        ModelCode := "my", VIN := none, IsB2B := false,
        OwnerCompanyName := none, IsUsed := false, MktOptions := none },
    Details :=
      { Tasks :=
          { Scheduling := none, Registration := none, FinalPayment := none,
            DeliveryDetails := none, Raw := [] },
        RawJSON := [] } }

/-- sampleOrder with a real VIN assigned, all other fields unchanged. -/
def sampleVINOrder : CombinedOrder :=
  { sampleOrder with
      Order := { sampleOrder.Order with VIN := some "5YJ3E1EA1LF123456" } }

/-- sampleOrder with the literal string "N/A" stored in both optional
string pointers. -/
def sampleNAOrder : CombinedOrder :=
  { sampleOrder with
      Order := { sampleOrder.Order with VIN := some "N/A", MktOptions := some "N/A" } }

/-- A task base value with empty display data. -/
def blankTask : TeslaTask :=
  { ID := "", Complete := false, Enabled := false, Required := false,
    Order := 0, Card := none }

/-- sampleOrder with the FinalPayment task and its Data sub-object present
but the ETA field empty. -/
def etaEmptyOrder : CombinedOrder :=
  { sampleOrder with
      Details :=
        { sampleOrder.Details with
            Tasks :=
              { sampleOrder.Details.Tasks with
                  FinalPayment :=
                    some { toTeslaTask := blankTask,
                           Data := some { ETAToDeliveryCenter := "" } } } } }

/-- A storage state already holding exactly the snapshot of sampleOrder. -/
def sigmaOne : Storage :=
  [("RN123456789", .good [{ Timestamp := 0, Data := sampleOrder }])]

/-- A history record with a single snapshot of sampleOrder. -/
def sampleHistoryOne : OrderHistory :=
  { ReferenceNumber := "RN123456789",
    Snapshots := [{ Timestamp := 0, Data := sampleOrder }] }

/-- A history record with 25 snapshots, timestamps 0 through 24. -/
def sample25 : OrderHistory :=
  { ReferenceNumber := "RN123456789",
    Snapshots := (List.range 25).map (fun i => { Timestamp := i, Data := sampleOrder }) }

/-! ### Helper lemmas shared by the claim theorems -/

theorem addDiff_of_eq {a b : String} (f : String) (h : a = b) : addDiff f a b = [] := by
  simp [addDiff, h]

theorem compareOrders_self_eq_nil (x : CombinedOrder) : CompareOrders x x = [] := by
  simp [CompareOrders, addDiff, mktOptionsDiff]

theorem lookupFile_setFile (σ : Storage) (k : String) (v : VFile) :
    lookupFile (setFile σ k v) k = some v := by
  induction σ with
  | nil => simp [setFile, lookupFile]
  | cons head tail ih =>
      obtain ⟨k1, v1⟩ := head
      by_cases hk : k1 = k
      · simp [setFile, hk, lookupFile]
      · simp [setFile, hk, lookupFile, ih]

theorem getLast?_drop_of_lt {α : Type} (l : List α) (k : Nat) (h : k < l.length) :
    (l.drop k).getLast? = l.getLast? := by
  induction l generalizing k with
  | nil => simp at h
  | cons a t ih =>
      cases k with
      | zero => rfl
      | succ k =>
          have ht : k < t.length := by simpa using h
          rw [List.drop_succ_cons, ih k ht]
          cases t with
          | nil => simp at ht
          | cons b t2 => rw [List.getLast?_cons_cons]

theorem pruneSnapshots_getLast? (l : List HistoricalSnapshot) :
    (pruneSnapshots l).getLast? = l.getLast? := by
  unfold pruneSnapshots
  split
  · have hmax : maxHistoryEntries = 20 := rfl
    exact getLast?_drop_of_lt l _ (by omega)
  · rfl

theorem pruneSnapshots_length_le (l : List HistoricalSnapshot) :
    (pruneSnapshots l).length ≤ l.length := by
  unfold pruneSnapshots
  split
  · simp
  · exact Nat.le_refl _

theorem mem_field_addDiff {s f x y : String}
    (h : s ∈ (addDiff f x y).map OrderDiff.Field) : s = f := by
  unfold addDiff at h
  split at h <;> simp_all

theorem mktOptionsDiff_eq (a b : CombinedOrder) :
    mktOptionsDiff a b = [] ∨
    ∃ x y, mktOptionsDiff a b =
      [{ Field := "Vehicle Options", OldValue := x, NewValue := y }] := by
  unfold mktOptionsDiff
  cases a.Order.MktOptions <;> cases b.Order.MktOptions <;>
    · dsimp only
      split
      · right; exact ⟨_, _, rfl⟩
      · left; rfl

theorem mem_field_mktOptionsDiff {s : String} {a b : CombinedOrder}
    (h : s ∈ (mktOptionsDiff a b).map OrderDiff.Field) : s = "Vehicle Options" := by
  rcases mktOptionsDiff_eq a b with he | ⟨x, y, he⟩ <;> rw [he] at h <;> simp_all

theorem addDiff_field_sublist (f x y : String) :
    List.Sublist ((addDiff f x y).map OrderDiff.Field) [f] := by
  unfold addDiff
  split <;> simp

theorem mktOptionsDiff_field_sublist (a b : CombinedOrder) :
    List.Sublist ((mktOptionsDiff a b).map OrderDiff.Field) ["Vehicle Options"] := by
  rcases mktOptionsDiff_eq a b with he | ⟨x, y, he⟩ <;> rw [he] <;> simp

/-! ### Claim theorems -/

/-- C3: the diff comparison is idempotent: for every snapshot x, including
one in which every optional sub-object and optional field is absent,
CompareOrders x x returns the empty sequence of diffs. -/
theorem compareOrders_idempotent (x : CombinedOrder) : CompareOrders x x = [] :=
  compareOrders_self_eq_nil x

/-- C2: SaveHistory enforces the retention bound before persisting: when a
history has more than maxHistoryEntries (20) snapshots, the record it
persists holds exactly the final 20 entries of the snapshot list, in their
original order, with the oldest entries dropped from the front (the list
splits as dropped-prefix ++ kept-suffix). -/
theorem saveHistory_retention (σ : Storage) (h : OrderHistory)
    (hlen : h.Snapshots.length > maxHistoryEntries) :
    lookupFile (History.SaveHistory σ h) h.ReferenceNumber =
      some (.good (h.Snapshots.drop (h.Snapshots.length - maxHistoryEntries))) ∧
    (h.Snapshots.drop (h.Snapshots.length - maxHistoryEntries)).length = maxHistoryEntries ∧
    h.Snapshots.take (h.Snapshots.length - maxHistoryEntries) ++
        h.Snapshots.drop (h.Snapshots.length - maxHistoryEntries) = h.Snapshots := by
  refine ⟨?_, ?_, List.take_append_drop _ _⟩
  · unfold History.SaveHistory pruneSnapshots
    rw [if_pos hlen]
    exact lookupFile_setFile σ _ _
  · rw [List.length_drop]
    omega

/-- C2 witness: a history with 25 pre-existing snapshots exceeds the bound,
and after SaveHistory exactly 20 remain, the oldest 5 dropped. -/
theorem saveHistory_retention_witness :
    sample25.Snapshots.length > maxHistoryEntries ∧
    (lookupFile (History.SaveHistory [] sample25) sample25.ReferenceNumber =
      some (.good (sample25.Snapshots.drop (sample25.Snapshots.length - maxHistoryEntries))) ∧
    (sample25.Snapshots.drop (sample25.Snapshots.length - maxHistoryEntries)).length =
      maxHistoryEntries ∧
    sample25.Snapshots.take (sample25.Snapshots.length - maxHistoryEntries) ++
        sample25.Snapshots.drop (sample25.Snapshots.length - maxHistoryEntries) =
      sample25.Snapshots) :=
  ⟨by decide, saveHistory_retention [] sample25 (by decide)⟩

/-- C7: LoadHistory returns an error only on an I/O or deserialization
fault (an unreadable or unparsable file); for every reference number with
no persisted record it succeeds and returns an empty OrderHistory carrying
that reference number with zero snapshots. -/
theorem loadHistory_missing_ok (σ : Storage) (r : String) :
    (∀ e, History.LoadHistory σ r = .error e →
        lookupFile σ r = some .unreadable ∨ lookupFile σ r = some .corrupt) ∧
    (lookupFile σ r = none →
        History.LoadHistory σ r = .ok { ReferenceNumber := r, Snapshots := [] }) := by
  constructor
  · intro e he
    unfold History.LoadHistory at he
    cases h : lookupFile σ r with
    | none => rw [h] at he; simp at he
    | some vf =>
        cases vf with
        | good s => rw [h] at he; simp at he
        | unreadable => exact Or.inl rfl
        | corrupt => exact Or.inr rfl
  · intro hm
    unfold History.LoadHistory
    rw [hm]

/-- C7 witness: loading a reference number from empty storage succeeds with
an empty history carrying that reference number. -/
theorem loadHistory_missing_ok_witness :
    History.LoadHistory [] "RN123456789" =
      .ok { ReferenceNumber := "RN123456789", Snapshots := [] } :=
  (loadHistory_missing_ok [] "RN123456789").2 rfl

/-- C8: the save path is not atomic. The record for RN123456789 is intact
and readable before the save, but a SaveHistory whose os.WriteFile call is
interrupted after truncating the destination leaves the record unreadable:
the next LoadHistory fails with a parse fault instead of seeing the
previous record. This contradicts the all-or-nothing visibility the claim
(and the spec) require, so the code, which writes with os.WriteFile in
place instead of writing a temporary file and renaming, is at fault. -/
theorem saveHistory_interrupted_corrupts :
    History.LoadHistory sigmaOne "RN123456789" = .ok sampleHistoryOne ∧
    History.LoadHistory (History.SaveHistoryInterrupted sigmaOne sampleHistoryOne)
        "RN123456789" = .error .parseFault := by
  constructor
  · simp [History.LoadHistory, sigmaOne, lookupFile, sampleHistoryOne]
  · simp [History.LoadHistory, History.SaveHistoryInterrupted, sigmaOne,
      sampleHistoryOne, lookupFile, setFile]

/-- C6: the diffs returned by CompareOrders always appear in the fixed
field enumeration order, with Vehicle Options last: the sequence of field
labels of the output is a sublist of the fixed enumeration, for every pair
of snapshots, regardless of which fields changed. -/
theorem compareOrders_diff_order (a b : CombinedOrder) :
    List.Sublist ((CompareOrders a b).map OrderDiff.Field) diffFieldOrder := by
  have hsplit : diffFieldOrder =
      ((((((((((((["Order Status"] ++ ["VIN"]) ++ ["Delivery Window"]) ++
      ["Delivery Appointment"]) ++ ["ETA to Delivery Center"]) ++
      ["Vehicle Location"]) ++ ["Delivery Method"]) ++ ["Delivery Center"]) ++
      ["Odometer"]) ++ ["License Plate"]) ++ ["Reservation Date"]) ++
      ["Order Booked Date"]) ++ ["Vehicle Options"]) := by
    rfl
  rw [hsplit]
  simp only [CompareOrders, List.map_append]
  exact ((((((((((((addDiff_field_sublist _ _ _).append
    (addDiff_field_sublist _ _ _)).append
    (addDiff_field_sublist _ _ _)).append
    (addDiff_field_sublist _ _ _)).append
    (addDiff_field_sublist _ _ _)).append
    (addDiff_field_sublist _ _ _)).append
    (addDiff_field_sublist _ _ _)).append
    (addDiff_field_sublist _ _ _)).append
    (addDiff_field_sublist _ _ _)).append
    (addDiff_field_sublist _ _ _)).append
    (addDiff_field_sublist _ _ _)).append
    (addDiff_field_sublist _ _ _)).append
    (mktOptionsDiff_field_sublist a b)

theorem append_mid_space_ne_empty (a b : String) : a ++ " " ++ b ≠ "" := by
  intro h
  have hlen := congrArg String.length h
  rw [String.length_append, String.length_append] at hlen
  have h1 : (" " : String).length = 1 := rfl
  have h0 : ("" : String).length = 0 := rfl
  omega

/-- C4 counterexample: a snapshot whose FinalPayment task and Data
sub-object are present but whose ETA field is the empty string makes
GetETAToDeliveryCenter return the empty string, not the "N/A" sentinel the
claim requires for an absent/empty field. -/
theorem getETA_empty_not_sentinel :
    etaEmptyOrder.GetETAToDeliveryCenter = "" ∧
    etaEmptyOrder.GetETAToDeliveryCenter ≠ "N/A" := by
  have h : etaEmptyOrder.GetETAToDeliveryCenter = "" := rfl
  rw [h]
  exact ⟨rfl, by simp⟩

/-- C4 (amended): every accessor returns the "N/A" sentinel when its owning
sub-object chain is absent, and never a language null (each is a total
String function). The accessors that guard on emptiness (GetVIN,
GetDeliveryWindow, GetDeliveryAppointment, GetDeliveryType,
GetDeliveryCenter, GetOdometer, GetReservationDate, GetOrderBookedDate)
also return "N/A" when the underlying field is empty and hence never
return the empty string; GetETAToDeliveryCenter, GetVehicleLocation and
GetLicensePlate instead return the raw field value, possibly empty, once
the owning chain is present. -/
theorem accessors_sentinel (c : CombinedOrder) :
    (c.Order.VIN = none ∨ c.Order.VIN = some "" → c.Order.GetVIN = "N/A") ∧
    c.Order.GetVIN ≠ "" ∧
    (c.Details.Tasks.Scheduling = none →
      c.GetDeliveryWindow = "N/A" ∧ c.GetDeliveryAppointment = "N/A" ∧
      c.GetDeliveryType = "N/A" ∧ c.GetDeliveryCenter = "N/A") ∧
    (∀ s, c.Details.Tasks.Scheduling = some s →
      (s.DeliveryWindowDisplay = "" → c.GetDeliveryWindow = "N/A") ∧
      (s.ApptDateTimeAddressStr = "" → c.GetDeliveryAppointment = "N/A") ∧
      (s.DeliveryType = "" → c.GetDeliveryType = "N/A") ∧
      (s.DeliveryAddressTitle = "" → c.GetDeliveryCenter = "N/A")) ∧
    c.GetDeliveryWindow ≠ "" ∧ c.GetDeliveryAppointment ≠ "" ∧
    c.GetDeliveryType ≠ "" ∧ c.GetDeliveryCenter ≠ "" ∧
    (c.Details.Tasks.Registration = none →
      c.GetVehicleLocation = "N/A" ∧ c.GetOdometer = "N/A" ∧
      c.GetReservationDate = "N/A" ∧ c.GetOrderBookedDate = "N/A") ∧
    (∀ r, c.Details.Tasks.Registration = some r → r.OrderDetails = none →
      c.GetVehicleLocation = "N/A" ∧ c.GetOdometer = "N/A" ∧
      c.GetReservationDate = "N/A" ∧ c.GetOrderBookedDate = "N/A") ∧
    (∀ r od, c.Details.Tasks.Registration = some r → r.OrderDetails = some od →
      (od.VehicleOdometer = "" → c.GetOdometer = "N/A") ∧
      (od.ReservationDate = "" → c.GetReservationDate = "N/A") ∧
      (od.OrderBookedDate = "" → c.GetOrderBookedDate = "N/A")) ∧
    c.GetOdometer ≠ "" ∧ c.GetReservationDate ≠ "" ∧ c.GetOrderBookedDate ≠ "" ∧
    (c.Details.Tasks.FinalPayment = none → c.GetETAToDeliveryCenter = "N/A") ∧
    (∀ fp, c.Details.Tasks.FinalPayment = some fp → fp.Data = none →
      c.GetETAToDeliveryCenter = "N/A") ∧
    (c.Details.Tasks.DeliveryDetails = none → c.GetLicensePlate = "N/A") ∧
    (∀ dd, c.Details.Tasks.DeliveryDetails = some dd → dd.RegData = none →
      c.GetLicensePlate = "N/A") ∧
    (∀ fp pd, c.Details.Tasks.FinalPayment = some fp → fp.Data = some pd →
      c.GetETAToDeliveryCenter = pd.ETAToDeliveryCenter) ∧
    (∀ r od, c.Details.Tasks.Registration = some r → r.OrderDetails = some od →
      c.GetVehicleLocation = od.VehicleRoutingLocation) ∧
    (∀ dd rd, c.Details.Tasks.DeliveryDetails = some dd → dd.RegData = some rd →
      c.GetLicensePlate = rd.ReggieLicensePlate) := by
  refine ⟨?_, ?_, ?_, ?_, ?_, ?_, ?_, ?_, ?_, ?_, ?_, ?_, ?_, ?_, ?_, ?_, ?_, ?_,
    ?_, ?_, ?_⟩
  · intro h
    rcases h with h | h <;> simp [TeslaOrder.GetVIN, h]
  · cases hv : c.Order.VIN with
    | none => simp [TeslaOrder.GetVIN, hv]
    | some v =>
        simp only [TeslaOrder.GetVIN, hv]
        split
        · assumption
        · simp
  · intro h
    simp [CombinedOrder.GetDeliveryWindow, CombinedOrder.GetDeliveryAppointment,
      CombinedOrder.GetDeliveryType, CombinedOrder.GetDeliveryCenter, h]
  · intro s hs
    refine ⟨fun he => ?_, fun he => ?_, fun he => ?_, fun he => ?_⟩
    · simp [CombinedOrder.GetDeliveryWindow, hs, he]
    · simp [CombinedOrder.GetDeliveryAppointment, hs, he]
    · simp [CombinedOrder.GetDeliveryType, hs, he]
    · simp [CombinedOrder.GetDeliveryCenter, hs, he]
  · cases hs : c.Details.Tasks.Scheduling with
    | none => simp [CombinedOrder.GetDeliveryWindow, hs]
    | some s =>
        simp only [CombinedOrder.GetDeliveryWindow, hs]
        split
        · assumption
        · simp
  · cases hs : c.Details.Tasks.Scheduling with
    | none => simp [CombinedOrder.GetDeliveryAppointment, hs]
    | some s =>
        simp only [CombinedOrder.GetDeliveryAppointment, hs]
        split
        · assumption
        · simp
  · cases hs : c.Details.Tasks.Scheduling with
    | none => simp [CombinedOrder.GetDeliveryType, hs]
    | some s =>
        simp only [CombinedOrder.GetDeliveryType, hs]
        split
        · assumption
        · simp
  · cases hs : c.Details.Tasks.Scheduling with
    | none => simp [CombinedOrder.GetDeliveryCenter, hs]
    | some s =>
        simp only [CombinedOrder.GetDeliveryCenter, hs]
        split
        · assumption
        · simp
  · intro h
    simp [CombinedOrder.GetVehicleLocation, CombinedOrder.GetOdometer,
      CombinedOrder.GetReservationDate, CombinedOrder.GetOrderBookedDate, h]
  · intro r hr hod
    simp [CombinedOrder.GetVehicleLocation, CombinedOrder.GetOdometer,
      CombinedOrder.GetReservationDate, CombinedOrder.GetOrderBookedDate, hr, hod]
  · intro r od hr hod
    refine ⟨fun he => ?_, fun he => ?_, fun he => ?_⟩
    · simp [CombinedOrder.GetOdometer, hr, hod, he]
    · simp [CombinedOrder.GetReservationDate, hr, hod, he]
    · simp [CombinedOrder.GetOrderBookedDate, hr, hod, he]
  · cases hr : c.Details.Tasks.Registration with
    | none => simp [CombinedOrder.GetOdometer, hr]
    | some r =>
        cases hod : r.OrderDetails with
        | none => simp [CombinedOrder.GetOdometer, hr, hod]
        | some od =>
            simp only [CombinedOrder.GetOdometer, hr, hod]
            split
            · split
              · exact append_mid_space_ne_empty _ _
              · assumption
            · simp
  · cases hr : c.Details.Tasks.Registration with
    | none => simp [CombinedOrder.GetReservationDate, hr]
    | some r =>
        cases hod : r.OrderDetails with
        | none => simp [CombinedOrder.GetReservationDate, hr, hod]
        | some od =>
            simp only [CombinedOrder.GetReservationDate, hr, hod]
            split
            · assumption
            · simp
  · cases hr : c.Details.Tasks.Registration with
    | none => simp [CombinedOrder.GetOrderBookedDate, hr]
    | some r =>
        cases hod : r.OrderDetails with
        | none => simp [CombinedOrder.GetOrderBookedDate, hr, hod]
        | some od =>
            simp only [CombinedOrder.GetOrderBookedDate, hr, hod]
            split
            · assumption
            · simp
  · intro h
    simp [CombinedOrder.GetETAToDeliveryCenter, h]
  · intro fp hfp hd
    simp [CombinedOrder.GetETAToDeliveryCenter, hfp, hd]
  · intro h
    simp [CombinedOrder.GetLicensePlate, h]
  · intro dd hdd hrd
    simp [CombinedOrder.GetLicensePlate, hdd, hrd]
  · intro fp pd hfp hpd
    simp [CombinedOrder.GetETAToDeliveryCenter, hfp, hpd]
  · intro r od hr hod
    simp [CombinedOrder.GetVehicleLocation, hr, hod]
  · intro dd rd hdd hrd
    simp [CombinedOrder.GetLicensePlate, hdd, hrd]

/-- C4 witness: the amended theorem applied to the all-absent baseline
snapshot yields the VIN sentinel. -/
theorem accessors_sentinel_witness : sampleOrder.Order.GetVIN = "N/A" :=
  (accessors_sentinel sampleOrder).1 (Or.inl rfl)

/-- C5: a snapshot with an absent VIN pointer and one with an empty VIN
string both derive the sentinel "N/A"; comparing either (as old) against a
snapshot carrying a real VIN, all other derived fields equal, yields
exactly one diff, labeled VIN, with old value "N/A" and new value the real
VIN. -/
theorem vin_sentinel_single_diff (old new : CombinedOrder) (v : String)
    (hold : old.Order.VIN = none ∨ old.Order.VIN = some "")
    (hnew : new.Order.VIN = some v) (hv : v ≠ "") (hvna : v ≠ "N/A")
    (hstatus : old.Order.OrderStatus = new.Order.OrderStatus)
    (hdw : old.GetDeliveryWindow = new.GetDeliveryWindow)
    (hda : old.GetDeliveryAppointment = new.GetDeliveryAppointment)
    (heta : old.GetETAToDeliveryCenter = new.GetETAToDeliveryCenter)
    (hvl : old.GetVehicleLocation = new.GetVehicleLocation)
    (hdt : old.GetDeliveryType = new.GetDeliveryType)
    (hdc : old.GetDeliveryCenter = new.GetDeliveryCenter)
    (hodo : old.GetOdometer = new.GetOdometer)
    (hlp : old.GetLicensePlate = new.GetLicensePlate)
    (hrd : old.GetReservationDate = new.GetReservationDate)
    (hbd : old.GetOrderBookedDate = new.GetOrderBookedDate)
    (hopts : old.Order.MktOptions.getD "N/A" = new.Order.MktOptions.getD "N/A") :
    old.Order.GetVIN = "N/A" ∧ new.Order.GetVIN = v ∧
    CompareOrders old new =
      [{ Field := "VIN", OldValue := "N/A", NewValue := v }] := by
  have h1 : old.Order.GetVIN = "N/A" := by
    rcases hold with h | h <;> simp [TeslaOrder.GetVIN, h]
  have h2 : new.Order.GetVIN = v := by
    simp [TeslaOrder.GetVIN, hnew, hv]
  refine ⟨h1, h2, ?_⟩
  have hvin : addDiff "VIN" old.Order.GetVIN new.Order.GetVIN =
      [{ Field := "VIN", OldValue := "N/A", NewValue := v }] := by
    rw [h1, h2]
    simp [addDiff, Ne.symm hvna]
  have hopt : mktOptionsDiff old new = [] := by
    unfold mktOptionsDiff
    cases ho : old.Order.MktOptions with
    | none =>
        cases hn : new.Order.MktOptions with
        | none => simp
        | some b =>
            rw [ho, hn] at hopts
            simp at hopts
            subst hopts
            simp
    | some a =>
        cases hn : new.Order.MktOptions with
        | none =>
            rw [ho, hn] at hopts
            simp at hopts
            subst hopts
            simp
        | some b =>
            rw [ho, hn] at hopts
            simp at hopts
            subst hopts
            simp
  unfold CompareOrders
  rw [addDiff_of_eq _ hstatus, addDiff_of_eq _ hdw, addDiff_of_eq _ hda,
    addDiff_of_eq _ heta, addDiff_of_eq _ hvl, addDiff_of_eq _ hdt,
    addDiff_of_eq _ hdc, addDiff_of_eq _ hodo, addDiff_of_eq _ hlp,
    addDiff_of_eq _ hrd, addDiff_of_eq _ hbd, hvin, hopt]
  simp

/-- C5 witness: the baseline snapshot (VIN pointer absent) against the same
snapshot with a real VIN assigned yields exactly the single VIN diff from
"N/A". -/
theorem vin_sentinel_single_diff_witness :
    sampleOrder.Order.GetVIN = "N/A" ∧
    sampleVINOrder.Order.GetVIN = "5YJ3E1EA1LF123456" ∧
    CompareOrders sampleOrder sampleVINOrder =
      [{ Field := "VIN", OldValue := "N/A", NewValue := "5YJ3E1EA1LF123456" }] :=
  vin_sentinel_single_diff sampleOrder sampleVINOrder "5YJ3E1EA1LF123456"
    (Or.inl rfl) rfl (by simp) (by simp) rfl rfl rfl rfl rfl rfl rfl rfl rfl rfl rfl rfl

/-- C9: diffing cannot distinguish an absent optional from the literal
string "N/A": an absent MktOptions pointer against one holding the literal
"N/A" contributes no Vehicle Options diff, and an absent VIN pointer
against a VIN holding the literal "N/A" contributes no VIN diff, whatever
the rest of the two snapshots contain (in particular when all other
derived fields are equal, as the claim states). -/
theorem na_literal_indistinguishable (a b : CombinedOrder) :
    (a.Order.MktOptions = none → b.Order.MktOptions = some "N/A" →
      "Vehicle Options" ∉ (CompareOrders a b).map OrderDiff.Field) ∧
    (a.Order.VIN = none → b.Order.VIN = some "N/A" →
      "VIN" ∉ (CompareOrders a b).map OrderDiff.Field) := by
  constructor
  · intro h1 h2 hmem
    have hopt : mktOptionsDiff a b = [] := by
      unfold mktOptionsDiff
      rw [h1, h2]
      simp
    unfold CompareOrders at hmem
    rw [hopt] at hmem
    simp only [List.map_append, List.map_nil, List.append_nil,
      List.mem_append] at hmem
    rcases hmem with
      ((((((((((hm | hm) | hm) | hm) | hm) | hm) | hm) | hm) | hm) | hm) | hm) | hm
    all_goals exact absurd (mem_field_addDiff hm) (by simp)
  · intro h1 h2 hmem
    have ha : a.Order.GetVIN = "N/A" := by simp [TeslaOrder.GetVIN, h1]
    have hb : b.Order.GetVIN = "N/A" := by simp [TeslaOrder.GetVIN, h2]
    have hvin : addDiff "VIN" a.Order.GetVIN b.Order.GetVIN = [] := by
      rw [ha, hb]
      simp [addDiff]
    unfold CompareOrders at hmem
    rw [hvin] at hmem
    simp only [List.map_append, List.map_nil, List.append_nil, List.nil_append,
      List.mem_append] at hmem
    rcases hmem with
      ((((((((((hm | hm) | hm) | hm) | hm) | hm) | hm) | hm) | hm) | hm) | hm) | hm
    all_goals exact absurd (mem_field_addDiff hm) (by simp)

/-- C9 witness: the baseline snapshot (both pointers absent) against the
same snapshot holding the literal "N/A" in both pointers produces neither
a Vehicle Options diff nor a VIN diff. -/
theorem na_literal_indistinguishable_witness :
    "Vehicle Options" ∉ (CompareOrders sampleOrder sampleNAOrder).map OrderDiff.Field ∧
    "VIN" ∉ (CompareOrders sampleOrder sampleNAOrder).map OrderDiff.Field :=
  ⟨(na_literal_indistinguishable sampleOrder sampleNAOrder).1 rfl rfl,
   (na_literal_indistinguishable sampleOrder sampleNAOrder).2 rfl rfl⟩

theorem addSnapshot_first (σ : Storage) (now : Nat) (o : CombinedOrder)
    (hload : History.LoadHistory σ o.Order.ReferenceNumber =
      .ok { ReferenceNumber := o.Order.ReferenceNumber, Snapshots := [] }) :
    History.AddSnapshot σ now o =
      .ok ([], History.SaveHistory σ
        { ReferenceNumber := o.Order.ReferenceNumber,
          Snapshots := [{ Timestamp := now, Data := o }] }) := by
  unfold History.AddSnapshot
  rw [hload]
  simp

theorem addSnapshot_append (σ : Storage) (now : Nat) (o : CombinedOrder)
    (snaps : List HistoricalSnapshot) (last : HistoricalSnapshot)
    (hload : History.LoadHistory σ o.Order.ReferenceNumber =
      .ok { ReferenceNumber := o.Order.ReferenceNumber, Snapshots := snaps })
    (hgl : snaps.getLast? = some last)
    (hc : (CompareOrders last.Data o).length > 0 ∨ snaps.length = 0) :
    History.AddSnapshot σ now o =
      .ok (CompareOrders last.Data o, History.SaveHistory σ
        { ReferenceNumber := o.Order.ReferenceNumber,
          Snapshots := snaps ++ [{ Timestamp := now, Data := o }] }) := by
  unfold History.AddSnapshot
  rw [hload]
  dsimp only
  rw [hgl]
  dsimp only
  rw [if_pos hc]

theorem addSnapshot_noop (σ : Storage) (now : Nat) (o : CombinedOrder)
    (snaps : List HistoricalSnapshot) (last : HistoricalSnapshot)
    (hload : History.LoadHistory σ o.Order.ReferenceNumber =
      .ok { ReferenceNumber := o.Order.ReferenceNumber, Snapshots := snaps })
    (hgl : snaps.getLast? = some last)
    (hc : ¬((CompareOrders last.Data o).length > 0 ∨ snaps.length = 0)) :
    History.AddSnapshot σ now o = .ok (CompareOrders last.Data o, σ) := by
  unfold History.AddSnapshot
  rw [hload]
  dsimp only
  rw [hgl]
  dsimp only
  rw [if_neg hc]

/-- Central consequence of a successful AddSnapshot: the storage it returns
holds a good record for the reference number of the order whose snapshot
list grew by at most one entry and whose newest entry compares clean
against the ingested order; and it reached the old count plus one only
when the stored history was empty (or missing) or its latest snapshot
differed from the order in some derived field. -/
theorem addSnapshot_ok_spec (σ : Storage) (now : Nat) (o : CombinedOrder)
    (d : List OrderDiff) (σ1 : Storage)
    (h : History.AddSnapshot σ now o = .ok (d, σ1)) :
    ∃ s : List HistoricalSnapshot,
      lookupFile σ1 o.Order.ReferenceNumber = some (.good s) ∧
      s.length ≤ snapCount σ o.Order.ReferenceNumber + 1 ∧
      (s.length = snapCount σ o.Order.ReferenceNumber + 1 →
        snapCount σ o.Order.ReferenceNumber = 0 ∨
        ∃ s0 last0, lookupFile σ o.Order.ReferenceNumber = some (.good s0) ∧
          s0.getLast? = some last0 ∧ CompareOrders last0.Data o ≠ []) ∧
      ∃ last : HistoricalSnapshot,
        s.getLast? = some last ∧ CompareOrders last.Data o = [] := by
  cases hlk : lookupFile σ o.Order.ReferenceNumber with
  | none =>
      have hload : History.LoadHistory σ o.Order.ReferenceNumber =
          .ok { ReferenceNumber := o.Order.ReferenceNumber, Snapshots := [] } := by
        unfold History.LoadHistory
        rw [hlk]
      rw [addSnapshot_first σ now o hload] at h
      simp only [Except.ok.injEq, Prod.mk.injEq] at h
      obtain ⟨hd, hσ⟩ := h
      refine ⟨[{ Timestamp := now, Data := o }], ?_, ?_, ?_, { Timestamp := now, Data := o },
        rfl, compareOrders_self_eq_nil o⟩
      · rw [← hσ]
        unfold History.SaveHistory
        have hp : pruneSnapshots [{ Timestamp := now, Data := o }] =
            [{ Timestamp := now, Data := o }] := by
          simp [pruneSnapshots, maxHistoryEntries]
        rw [hp]
        exact lookupFile_setFile σ _ _
      · simp [snapCount, hlk]
      · intro _
        left
        simp [snapCount, hlk]
  | some vf =>
      cases vf with
      | good hs =>
          have hload : History.LoadHistory σ o.Order.ReferenceNumber =
              .ok { ReferenceNumber := o.Order.ReferenceNumber, Snapshots := hs } := by
            unfold History.LoadHistory
            rw [hlk]
          have hcount : snapCount σ o.Order.ReferenceNumber = hs.length := by
            simp [snapCount, hlk]
          cases hgl : hs.getLast? with
          | none =>
              rw [List.getLast?_eq_none_iff] at hgl
              subst hgl
              rw [addSnapshot_first σ now o hload] at h
              simp only [Except.ok.injEq, Prod.mk.injEq] at h
              obtain ⟨hd, hσ⟩ := h
              refine ⟨[{ Timestamp := now, Data := o }], ?_, ?_, ?_,
                { Timestamp := now, Data := o }, rfl, compareOrders_self_eq_nil o⟩
              · rw [← hσ]
                unfold History.SaveHistory
                have hp : pruneSnapshots [{ Timestamp := now, Data := o }] =
                    [{ Timestamp := now, Data := o }] := by
                  simp [pruneSnapshots, maxHistoryEntries]
                rw [hp]
                exact lookupFile_setFile σ _ _
              · rw [hcount]
                simp
              · intro _
                left
                rw [hcount]
                rfl
          | some last0 =>
              by_cases hc : (CompareOrders last0.Data o).length > 0 ∨ hs.length = 0
              · have hdiff : (CompareOrders last0.Data o).length > 0 := by
                  rcases hc with hc | hc
                  · exact hc
                  · exfalso
                    rw [List.length_eq_zero] at hc
                    subst hc
                    simp at hgl
                rw [addSnapshot_append σ now o hs last0 hload hgl hc] at h
                simp only [Except.ok.injEq, Prod.mk.injEq] at h
                obtain ⟨hd, hσ⟩ := h
                refine ⟨pruneSnapshots (hs ++ [{ Timestamp := now, Data := o }]), ?_, ?_, ?_,
                  { Timestamp := now, Data := o }, ?_, compareOrders_self_eq_nil o⟩
                · rw [← hσ]
                  unfold History.SaveHistory
                  exact lookupFile_setFile σ _ _
                · have hle := pruneSnapshots_length_le (hs ++ [{ Timestamp := now, Data := o }])
                  rw [List.length_append] at hle
                  rw [hcount]
                  simpa using hle
                · intro _
                  right
                  refine ⟨hs, last0, rfl, hgl, ?_⟩
                  intro hn
                  rw [hn] at hdiff
                  simp at hdiff
                · rw [pruneSnapshots_getLast?]
                  exact List.getLast?_concat _
              · rw [addSnapshot_noop σ now o hs last0 hload hgl hc] at h
                simp only [Except.ok.injEq, Prod.mk.injEq] at h
                obtain ⟨hd, hσ⟩ := h
                push_neg at hc
                obtain ⟨hc1, hc2⟩ := hc
                have hnil : CompareOrders last0.Data o = [] := by
                  have : (CompareOrders last0.Data o).length = 0 := by omega
                  exact List.length_eq_zero.mp this
                refine ⟨hs, ?_, ?_, ?_, last0, hgl, hnil⟩
                · rw [← hσ]
                  exact hlk
                · rw [hcount]
                  omega
                · intro hx
                  rw [hcount] at hx
                  exact absurd hx (by omega)
      | unreadable =>
          exfalso
          unfold History.AddSnapshot History.LoadHistory at h
          rw [hlk] at h
          simp at h
      | corrupt =>
          exfalso
          unfold History.AddSnapshot History.LoadHistory at h
          rw [hlk] at h
          simp at h

/-- C1 counterexample: on a storage state whose history already holds a
snapshot identical to the incoming order, AddSnapshot called twice in
succession with that order appends zero snapshots in total, not exactly
one: both calls return empty diffs and leave the storage unchanged, so the
record still holds its one original snapshot. -/
theorem addSnapshot_pair_appends_none :
    History.AddSnapshot sigmaOne 1 sampleOrder = .ok ([], sigmaOne) ∧
    History.AddSnapshot sigmaOne 2 sampleOrder = .ok ([], sigmaOne) ∧
    snapCount sigmaOne "RN123456789" = 1 := by
  have hload : History.LoadHistory sigmaOne sampleOrder.Order.ReferenceNumber =
      .ok { ReferenceNumber := sampleOrder.Order.ReferenceNumber,
            Snapshots := [{ Timestamp := 0, Data := sampleOrder }] } := by
    unfold History.LoadHistory
    have hlk : lookupFile sigmaOne sampleOrder.Order.ReferenceNumber =
        some (.good [{ Timestamp := 0, Data := sampleOrder }]) := by
      simp [sigmaOne, lookupFile, sampleOrder]
    rw [hlk]
  have key : ∀ t, History.AddSnapshot sigmaOne t sampleOrder = .ok ([], sigmaOne) := by
    intro t
    have h := addSnapshot_noop sigmaOne t sampleOrder
      [{ Timestamp := 0, Data := sampleOrder }] { Timestamp := 0, Data := sampleOrder }
      hload rfl (by simp [compareOrders_self_eq_nil])
    rwa [compareOrders_self_eq_nil] at h
  refine ⟨key 1, key 2, ?_⟩
  simp [snapCount, sigmaOne, lookupFile]

/-- C1 (amended): for every storage state and order, once a first
AddSnapshot call has succeeded, calling AddSnapshot again with identical
order data detects an empty diff set, does not append, does not rewrite
the persisted record (it returns the storage exactly as the first call
left it) and returns an empty diff sequence; across the two calls the
stored snapshot list for the reference number grows by at most one entry,
appended, if at all, by the first call (it grows by exactly one only when
the history was empty or its latest snapshot differed from the order). -/
theorem addSnapshot_repeat_noop (σ : Storage) (t1 t2 : Nat) (o : CombinedOrder)
    (d : List OrderDiff) (σ1 : Storage)
    (h1 : History.AddSnapshot σ t1 o = .ok (d, σ1)) :
    History.AddSnapshot σ1 t2 o = .ok ([], σ1) ∧
    snapCount σ1 o.Order.ReferenceNumber ≤ snapCount σ o.Order.ReferenceNumber + 1 ∧
    (snapCount σ1 o.Order.ReferenceNumber = snapCount σ o.Order.ReferenceNumber + 1 →
      snapCount σ o.Order.ReferenceNumber = 0 ∨
      ∃ s0 last0, lookupFile σ o.Order.ReferenceNumber = some (.good s0) ∧
        s0.getLast? = some last0 ∧ CompareOrders last0.Data o ≠ []) := by
  obtain ⟨s, hl, hlen, hgrow, last, hlast, hcmp⟩ := addSnapshot_ok_spec σ t1 o d σ1 h1
  have hload : History.LoadHistory σ1 o.Order.ReferenceNumber =
      .ok { ReferenceNumber := o.Order.ReferenceNumber, Snapshots := s } := by
    unfold History.LoadHistory
    rw [hl]
  have hs1 : snapCount σ1 o.Order.ReferenceNumber = s.length := by
    rw [snapCount, hl]
  refine ⟨?_, ?_, ?_⟩
  · have hslen : s.length ≠ 0 := by
      intro h0
      rw [List.length_eq_zero] at h0
      subst h0
      simp at hlast
    have h := addSnapshot_noop σ1 t2 o s last hload hlast
      (by simp [hcmp, hslen])
    rwa [hcmp] at h
  · rw [hs1]
    exact hlen
  · intro hx
    exact hgrow (hs1.symm.trans hx)

/-- C1 witness: starting from empty storage, the first AddSnapshot call
appends the baseline snapshot; the second call with identical data is a
no-op on the resulting storage and the record grew by at most one entry. -/
theorem addSnapshot_repeat_noop_witness :
    History.AddSnapshot sigmaOne 1 sampleOrder = .ok ([], sigmaOne) ∧
    snapCount sigmaOne sampleOrder.Order.ReferenceNumber ≤
      snapCount ([] : Storage) sampleOrder.Order.ReferenceNumber + 1 ∧
    (snapCount sigmaOne sampleOrder.Order.ReferenceNumber =
        snapCount ([] : Storage) sampleOrder.Order.ReferenceNumber + 1 →
      snapCount ([] : Storage) sampleOrder.Order.ReferenceNumber = 0 ∨
      ∃ s0 last0, lookupFile [] sampleOrder.Order.ReferenceNumber = some (.good s0) ∧
        s0.getLast? = some last0 ∧ CompareOrders last0.Data sampleOrder ≠ []) :=
  addSnapshot_repeat_noop [] 0 1 sampleOrder [] sigmaOne rfl

/-- C10: whenever AddSnapshot returns without error, GetLatestSnapshot on
the resulting storage returns a present snapshot (not the absent marker)
whose data compares clean against the ingested order, on all three paths:
first observation, change appended, and unchanged no-op. -/
theorem addSnapshot_latest_roundtrip (σ : Storage) (now : Nat) (o : CombinedOrder)
    (d : List OrderDiff) (σ1 : Storage)
    (h : History.AddSnapshot σ now o = .ok (d, σ1)) :
    ∃ s : HistoricalSnapshot,
      History.GetLatestSnapshot σ1 o.Order.ReferenceNumber = .ok (some s) ∧
      CompareOrders s.Data o = [] := by
  obtain ⟨lst, hl, _, _, last, hlast, hcmp⟩ := addSnapshot_ok_spec σ now o d σ1 h
  refine ⟨last, ?_, hcmp⟩
  unfold History.GetLatestSnapshot History.LoadHistory
  rw [hl]
  dsimp only
  rw [hlast]

/-- C10 witness: ingesting the baseline order into empty storage succeeds,
and the latest snapshot read back from the resulting storage compares
clean against that order. -/
theorem addSnapshot_latest_roundtrip_witness :
    ∃ s : HistoricalSnapshot,
      History.GetLatestSnapshot sigmaOne sampleOrder.Order.ReferenceNumber =
        .ok (some s) ∧
      CompareOrders s.Data sampleOrder = [] :=
  addSnapshot_latest_roundtrip [] 0 sampleOrder [] sigmaOne rfl

end TeslaDelivery
